import Mathlib

/-!
Verification development for the smartapply-ai resume pipeline.

The embedding models the two core pieces of the repository:

* the server route `POST /api/analyze-resume` (server/index.ts): a four-task
  generation pipeline (analysis, customizedResume, specificChanges,
  coverLetter) assembling one `Analysis` result object, with per-task
  failure containment;
* the client handlers in the ResumeAnalyzer component: PDF text extraction
  (`handleFileUpload`) and the cover-letter-only run
  (`handleGenerateCoverLetter`) that patches a `coverLetter` field into the
  previously stored result.

Texts are modelled as `List Char` so that all JavaScript string operations
(trim, indexOf, lastIndexOf, slice, endsWith, includes, toLowerCase) are
plain executable list functions.  The remote completion service and the
JavaScript builtin `JSON.parse` are modelled as oracle parameters: a
`GenClient` records the outcome of each of the four network calls, and a
`parse : Str → Option Json` argument stands for `JSON.parse` (`none` models a
parse exception).
-/

namespace SmartApply

/-- JavaScript strings, modelled as lists of characters. -/
abbrev Str := List Char

/-- Whitespace, as recognised by JavaScript `String.prototype.trim`
(space, tab, line feed, carriage return, vertical tab, form feed,
no-break space, BOM; the more exotic Unicode space classes never occur
in the texts this development manipulates). -/
def wsChar (c : Char) : Bool :=
  c == ' ' || c == '\t' || c == '\n' || c == '\r' ||
  c == Char.ofNat 11 || c == Char.ofNat 12 ||
  c == Char.ofNat 0xA0 || c == Char.ofNat 0xFEFF

/-- Drop trailing whitespace. -/
def rtrim (l : Str) : Str := (l.reverse.dropWhile wsChar).reverse

/-- JavaScript `s.trim()`: drop leading and trailing whitespace. -/
def trimStr (l : Str) : Str := (rtrim l).dropWhile wsChar

/-- JavaScript `s.indexOf(c)`: index of the first occurrence of `c`,
`none` standing for `-1`. -/
def firstIdx : Str → Char → Option Nat
  | [], _ => none
  | x :: xs, c => if x = c then some 0 else (firstIdx xs c).map (· + 1)

/-- JavaScript `s.lastIndexOf(c)`: index of the last occurrence of `c`,
`none` standing for `-1`. -/
def lastIdx (l : Str) (c : Char) : Option Nat :=
  (firstIdx l.reverse c).map (fun i => l.length - 1 - i)

/-- JavaScript `s.slice(a, b)` for `0 ≤ a ≤ b` (the only use sites slice
inside bounds). -/
def sliceStr (l : Str) (a b : Nat) : Str := (l.drop a).take (b - a)

/-- JavaScript `s.includes(pat)`. -/
def containsSub (pat l : Str) : Bool := l.tails.any (fun t => pat.isPrefixOf t)

/-- JSON values, the possible results of `JSON.parse`. -/
inductive Json where
  | null : Json
  | bool : Bool → Json
  | num : Int → Json
  | str : Str → Json
  | arr : List Json → Json
  | obj : List (Str × Json) → Json

/-- JavaScript property access `v[key]` on a parsed JSON value: `none`
models `undefined`.  `JSON.parse` keeps the last of duplicate keys, hence
the left fold that lets later fields overwrite earlier ones. -/
def getField : Json → Str → Option Json
  | .obj fields, key =>
      fields.foldl (fun acc f => if f.1 = key then some f.2 else acc) none
  | _, _ => none

/-- The coercion `Array.isArray(v) ? v : []` applied to a (possibly
`undefined`) field value, as in the `/api/analyze-resume` handler. -/
def coerceArr : Option Json → List Json
  | some (.arr xs) => xs
  | _ => []

/-- The result object assembled by the pipeline (the server `Analysis`
type, identical to the client `ResumeAnalysis` interface).  The three
array fields hold whatever JSON values the model returned, since
`Array.isArray` checks only arrayness, never element types. -/
structure Analysis where
  strengths : List Json
  improvements : List Json
  tailoring : List Json
  customizedResume : Option Str
  specificChanges : Option Str
  coverLetter : Option Str

/-- The two fixed default strength strings (server/index.ts lines 139-142). -/
def defaultStrengths : List Json :=
  [ .str "Solid technical foundation communicated clearly.".toList,
    .str "Highlights relevant experience and impact-driven bullet points.".toList ]

/-- The two fixed default improvement strings (server/index.ts lines 143-146). -/
def defaultImprovements : List Json :=
  [ .str "Quantify achievements (e.g., impact, metrics) wherever possible.".toList,
    .str "Add a short summary that aligns with the target role\x27s keywords.".toList ]

/-- The two fixed default tailoring strings (server/index.ts lines 147-150). -/
def defaultTailoring : List Json :=
  [ .str "Mirror key phrases from the job description in the skills section.".toList,
    .str "Mention recent projects that demonstrate the required tools or domains.".toList ]

/-- The `analysis` object as initialised before any network call:
the fixed default triple, every optional field absent. -/
def defaultAnalysis : Analysis :=
  { strengths := defaultStrengths
    improvements := defaultImprovements
    tailoring := defaultTailoring
    customizedResume := none
    specificChanges := none
    coverLetter := none }

def kStrengths : Str := "strengths".toList

def kImprovements : Str := "improvements".toList

def kTailoring : Str := "tailoring".toList

def kCoverLetter : Str := "coverLetter".toList

/-- The fixed notice stored when the cover-letter response trims to empty
(server/index.ts line 334). -/
def emptyCoverLetterMsg : Str :=
  "Cover letter generation returned an empty response. Please try again.".toList

/-- The fallback message stored when the cover-letter call throws
(server/index.ts line 342); `m` is the error message. -/
def coverLetterFailMsg (m : Str) : Str :=
  "Cover letter generation failed: ".toList ++ m ++ ". Please try again.".toList

/-- Oracle for the four completion calls of one full run: each field is the
outcome of `openai.chat.completions.create` for that task, `.error m`
modelling a rejected promise with message `m` and `.ok t` a response whose
first choice has content `t` (already defaulted to `""` when absent). -/
structure GenClient where
  analysis : Except Str Str
  customize : Except Str Str
  specificChanges : Except Str Str
  coverLetter : Except Str Str

/-- The strict-JSON extraction step of the analysis task
(server/index.ts lines 176-188): locate the first `\x7b` and the last
`\x7d`, slice between them inclusive, attempt `JSON.parse` (the `parse`
oracle; `none` models a parse exception, which the inner catch turns into
keeping the defaults), then coerce the three expected keys with
`Array.isArray`. -/
def applyAnalysisText (a : Analysis) (text : Str) (parse : Str → Option Json) :
    Analysis :=
  match firstIdx text '{', lastIdx text '}' with
  | some s, some e =>
      if s < e then
        match parse (sliceStr text s (e + 1)) with
        | some parsed =>
            { a with
              strengths := coerceArr (getField parsed kStrengths)
              improvements := coerceArr (getField parsed kImprovements)
              tailoring := coerceArr (getField parsed kTailoring) }
        | none => a
      else a
  | _, _ => a

/-- The customized-resume task block (server/index.ts lines 191-215):
runs only when the trimmed job description is non-empty (`customizePrompt`
is non-null), catches its own failure, and stores the trimmed content only
when non-empty. -/
def stepCustomize (a : Analysis) (jobDescription : Str) (r : Except Str Str) :
    Analysis :=
  if trimStr jobDescription = [] then a
  else
    match r with
    | .error _ => a
    | .ok c => if trimStr c = [] then a
               else { a with customizedResume := some (trimStr c) }

/-- The specific-changes task block (server/index.ts lines 218-246), the
same shape as the customized-resume block. -/
def stepChanges (a : Analysis) (jobDescription : Str) (r : Except Str Str) :
    Analysis :=
  if trimStr jobDescription = [] then a
  else
    match r with
    | .error _ => a
    | .ok c => if trimStr c = [] then a
               else { a with specificChanges := some (trimStr c) }

/-- The cover-letter task block (server/index.ts lines 249-344): runs only
when the trimmed job description is non-empty; a non-empty response is
stored trimmed, an empty response stores a fixed notice, and a failure is
converted into a human-readable message embedding the cause. -/
def stepCoverLetter (a : Analysis) (jobDescription : Str) (r : Except Str Str) :
    Analysis :=
  if trimStr jobDescription = [] then a
  else
    match r with
    | .ok c =>
        if trimStr c = [] then { a with coverLetter := some emptyCoverLetterMsg }
        else { a with coverLetter := some (trimStr c) }
    | .error m => { a with coverLetter := some (coverLetterFailMsg m) }

/-- The full-analysis run (`POST /api/analyze-resume`, server/index.ts
lines 138-357, after request validation): start from the defaults, then the
big `try` block runs analysis, customization, specific changes and cover
letter in order.  A failure of the analysis call itself is rethrown into
the outer catch (lines 346-354), which skips the three remaining task
blocks and falls through to `res.json(analysis)` with the untouched
defaults. -/
def runFullAnalysis (resumeText jobDescription : Str) (client : GenClient)
    (parse : Str → Option Json) : Analysis :=
  match client.analysis with
  | .error _ => defaultAnalysis
  | .ok analysisText =>
      stepCoverLetter
        (stepChanges
          (stepCustomize (applyAnalysisText defaultAnalysis analysisText parse)
            jobDescription client.customize)
          jobDescription client.specificChanges)
        jobDescription client.coverLetter

/-! ## Document text extraction (client, `handleFileUpload`) -/

/-- One PDF page as `pdfjs` delivers it to the page loop: the list of text
content items, each carrying a string `str` property or not (marked-content
items); the code maps items without a string `str` to `""`. -/
abbrev Page := List (Option Str)

/-- The text of one page (ResumeAnalyzer lines 91-98): every item mapped to
its `str` (or `""`), joined with single spaces. -/
def pageText (p : Page) : Str :=
  List.intercalate " ".toList (p.map (fun o => o.getD []))

/-- The accumulation loop of `handleFileUpload` (lines 85-100):
`extractedText += pageText + "\n"` over the pages in ascending order. -/
def joinPages : List Page → Str
  | [] => []
  | p :: ps => pageText p ++ '\n' :: joinPages ps

/-- The uploaded file's metadata as consulted by the validation checks:
declared media type (`file.type`), file name and byte size. -/
structure UploadFile where
  mediaType : Str
  name : Str
  size : Nat

/-- JavaScript `name.toLowerCase()` (ASCII names in practice). -/
def lowerStr (l : Str) : Str := l.map Char.toLower

/-- The acceptance test of ResumeAnalyzer line 54: the file is taken as a
PDF when its media type is `application/pdf` or its lowercased name ends in
`.pdf`. -/
def declaresPdf (f : UploadFile) : Bool :=
  f.mediaType == "application/pdf".toList ||
  List.isSuffixOf ".pdf".toList (lowerStr f.name)

/-- The outcome of a `handleFileUpload` run, following the spec's error
taxonomy: `invalidDocument` is the "Invalid file type" rejection,
`documentTooLarge` the "File too large" rejection, `extractionFailed` the
catch branch of the decode, and `ok` carries the extracted text stored into
`resumeText`. -/
inductive ExtractOutcome where
  | invalidDocument : ExtractOutcome
  | documentTooLarge : ExtractOutcome
  | extractionFailed : Str → ExtractOutcome
  | ok : Str → ExtractOutcome

/-- Text extraction (`handleFileUpload`, ResumeAnalyzer lines 52-121).
The `pdf` argument is the oracle for the pdfjs decode: `.error m` models a
rejected `getDocument`/`getPage`/`getTextContent` promise and `.ok pages`
a successful decode into per-page item lists.  The type check runs first,
then the size check (`file.size > 5 * 1024 * 1024`), and only then is the
decoder consulted; on success the accumulated text is trimmed. -/
def extractText (f : UploadFile) (pdf : Except Str (List Page)) :
    ExtractOutcome :=
  if declaresPdf f = false then .invalidDocument
  else if f.size > 5 * 1024 * 1024 then .documentTooLarge
  else
    match pdf with
    | .error m => .extractionFailed m
    | .ok pages => .ok (trimStr (joinPages pages))

/-! ## Cover-letter-only run (client, `handleGenerateCoverLetter`) -/

/-- The client state touched by `handleGenerateCoverLetter`: the extracted
resume text, the job description, and the stored result object (`analysis`,
`null` when no run has completed yet). -/
structure ClientState where
  resumeText : Str
  jobDescription : Str
  analysis : Option Analysis

/-- The outcome of one `fetch("/api/analyze-resume")`: the promise rejects
(`netFail`), or an HTTP response arrives with ok-flag `ok` and a body that
parses as JSON (`some raw`) or fails to parse (`none`). -/
inductive FetchResult where
  | netFail : FetchResult
  | resp : Bool → Option Json → FetchResult

/-- The observable outcome of a `handleGenerateCoverLetter` run:
an early validation rejection with its toast message, a successful merge,
or a caught failure (destructive toast; the message content is
presentation-only and not modelled). -/
inductive CoverLetterOutcome where
  | validationFailed : Str → CoverLetterOutcome
  | success : CoverLetterOutcome
  | failure : CoverLetterOutcome

def uploadFirstMsg : Str := "Please upload your resume PDF first.".toList

def needJobDescriptionMsg : Str :=
  "Please provide a job description to generate a cover letter.".toList

def generationFailedTok : Str := "generation failed".toList

def emptyResponseTok : Str := "empty response".toList

/-- The `setAnalysis` updater of ResumeAnalyzer lines 266-273:
spread the previous result when there is one and overwrite `coverLetter`;
otherwise build a fresh result from the response's coerced array fields. -/
def mergeCoverLetter (prev : Option Analysis) (raw : Json) (cl : Str) :
    Analysis :=
  match prev with
  | some a => { a with coverLetter := some cl }
  | none =>
      { strengths := coerceArr (getField raw kStrengths)
        improvements := coerceArr (getField raw kImprovements)
        tailoring := coerceArr (getField raw kTailoring)
        customizedResume := none
        specificChanges := none
        coverLetter := some cl }

/-- The cover-letter-only run (`handleGenerateCoverLetter`, ResumeAnalyzer
lines 205-297).  Validation rejects before any fetch when the trimmed
resume text or job description is empty.  Afterwards: a rejected fetch, a
non-ok response, an unparsable body, a missing or non-string or empty
`coverLetter` field (the JavaScript truthiness test
`rawAnalysis.coverLetter && typeof ... === "string"`), or a letter
containing "generation failed" or "empty response", all throw into the
catch, which only toasts; only the remaining path stores a merged result. -/
def handleGenerateCoverLetter (st : ClientState) (fr : FetchResult) :
    ClientState × CoverLetterOutcome :=
  if trimStr st.resumeText = [] then (st, .validationFailed uploadFirstMsg)
  else if trimStr st.jobDescription = [] then
    (st, .validationFailed needJobDescriptionMsg)
  else
    match fr with
    | .netFail => (st, .failure)
    | .resp ok body =>
        if ok = false then (st, .failure)
        else
          match body with
          | none => (st, .failure)
          | some raw =>
              match getField raw kCoverLetter with
              | some (.str cl) =>
                  if cl = [] then (st, .failure)
                  else if containsSub generationFailedTok cl ||
                          containsSub emptyResponseTok cl then (st, .failure)
                  else
                    ({ st with analysis := some (mergeCoverLetter st.analysis raw cl) },
                     .success)
              | _ => (st, .failure)

/-! ## Spec-side definitions

Two definitions below follow the wording of the specification rather than
the source; they exist only to be compared with the source-derived
behaviour. -/

/-- Spec-side: "an array of strings" (spec section 4.4), the shape the
specification says each of the three analysis keys is coerced against. -/
def isStringArray : Json → Bool
  | .arr xs => xs.all (fun x => match x with | .str _ => true | _ => false)
  | _ => false

/-- Spec-side: "pages are joined by exactly one newline, in ascending page
order" (spec section 8) — page texts interleaved with single `\n`
separators, no trailing separator. -/
def specJoin : List Str → Str
  | [] => []
  | [x] => x
  | x :: y :: xs => x ++ '\n' :: specJoin (y :: xs)

/-! ## Helper lemmas -/

theorem wsChar_nl : wsChar '\n' = true := by decide

/-- Trailing whitespace after a newline is absorbed by `trimStr`. -/
theorem trimStr_append_nl (s : Str) : trimStr (s ++ ['\n']) = trimStr s := by
  unfold trimStr rtrim
  rw [List.reverse_append]
  simp only [List.reverse_cons, List.reverse_nil, List.nil_append,
    List.singleton_append, List.dropWhile_cons, wsChar_nl, if_true]

/-- The page loop produces the newline-interleaved page texts followed by
one trailing newline. -/
theorem joinPages_eq_specJoin (p : Page) (ps : List Page) :
    joinPages (p :: ps) = specJoin ((p :: ps).map pageText) ++ ['\n'] := by
  induction ps generalizing p with
  | nil => simp [joinPages, specJoin]
  | cons q qs ih =>
      rw [joinPages, ih q]
      simp [specJoin, List.cons_append]

/-- After trimming, the trailing newline of the page loop disappears and
the extracted text is exactly the newline-joined page texts, trimmed. -/
theorem trim_joinPages (pages : List Page) :
    trimStr (joinPages pages) = trimStr (specJoin (pages.map pageText)) := by
  cases pages with
  | nil => rfl
  | cons p ps => rw [joinPages_eq_specJoin, trimStr_append_nl]

/-! ## Claims C8 and C9: document text extraction -/

/-- Claim C8 (confirmed): for every valid PDF — one that passes the type
and size checks and decodes into a list of pages — the extracted text is
the per-page text runs joined by single spaces within each page
(`pageText`), pages joined by exactly one newline in ascending page order
(`specJoin`), and the whole string trimmed of leading and trailing
whitespace. -/
theorem extractText_joins_pages (f : UploadFile) (pages : List Page)
    (h1 : declaresPdf f = true) (h2 : f.size ≤ 5 * 1024 * 1024) :
    extractText f (.ok pages) =
      .ok (trimStr (specJoin (pages.map pageText))) := by
  unfold extractText
  rw [h1]
  simp [Nat.not_lt.mpr h2, trim_joinPages]

theorem extractText_joins_pages_witness :
    extractText
      { mediaType := "application/pdf".toList, name := "resume.pdf".toList,
        size := 1000 }
      (.ok [[some "Hello".toList, none, some "World".toList],
            [some "Second page".toList]]) =
    .ok (trimStr (specJoin
      ([[some "Hello".toList, none, some "World".toList],
        [some "Second page".toList]].map pageText))) :=
  extractText_joins_pages _ _ (by decide) (by decide)

/-- Claim C9 is refuted as stated: an input that is both oversized and
non-PDF is rejected by the type check, which runs first, so it fails with
`invalidDocument`, not `documentTooLarge` as the claim requires for every
input of size at least 5 MiB + 1 byte. -/
theorem extractText_size_check_cex :
    extractText
      { mediaType := "text/plain".toList, name := "resume.txt".toList,
        size := 5 * 1024 * 1024 + 1 } (.ok []) = .invalidDocument ∧
    extractText
      { mediaType := "text/plain".toList, name := "resume.txt".toList,
        size := 5 * 1024 * 1024 + 1 } (.ok []) ≠ .documentTooLarge := by
  constructor
  · rfl
  · intro h
    exact ExtractOutcome.noConfusion h

/-- Claim C9 (corrected): the type check precedes the size check.
`extractText` fails with `invalidDocument` for every input that declares no
PDF media type (neither content type nor `.pdf` suffix), and with
`documentTooLarge` for every declared-PDF input of size at least
5 MiB + 1 byte; in both cases the decode oracle is never consulted (the
outcome is the same for every possible decode result). -/
theorem extractText_validation (f : UploadFile) :
    (declaresPdf f = false →
      ∀ pdf : Except Str (List Page), extractText f pdf = .invalidDocument) ∧
    (declaresPdf f = true → 5 * 1024 * 1024 < f.size →
      ∀ pdf : Except Str (List Page), extractText f pdf = .documentTooLarge) := by
  constructor
  · intro h pdf
    unfold extractText
    rw [h]
    simp
  · intro h hsize pdf
    unfold extractText
    rw [h]
    simp [hsize]

theorem extractText_validation_witness :
    (extractText
      { mediaType := "text/plain".toList, name := "a.txt".toList, size := 10 }
      (.ok []) = .invalidDocument) ∧
    (extractText
      { mediaType := "application/pdf".toList, name := "a.pdf".toList,
        size := 5 * 1024 * 1024 + 1 } (.error "x".toList) = .documentTooLarge) :=
  ⟨(extractText_validation _).1 (by decide) _,
   (extractText_validation _).2 (by decide) (by decide) _⟩

/-! ## Frame lemmas for the pipeline steps -/

/-- The customized-resume block touches only `customizedResume`. -/
theorem stepCustomize_frame (a : Analysis) (jd : Str) (r : Except Str Str) :
    (stepCustomize a jd r).strengths = a.strengths ∧
    (stepCustomize a jd r).improvements = a.improvements ∧
    (stepCustomize a jd r).tailoring = a.tailoring ∧
    (stepCustomize a jd r).specificChanges = a.specificChanges ∧
    (stepCustomize a jd r).coverLetter = a.coverLetter := by
  unfold stepCustomize
  by_cases h : trimStr jd = []
  · simp [h]
  · cases r with
    | error e => simp [h]
    | ok c =>
        by_cases hc : trimStr c = [] <;> simp [h, hc]

/-- The specific-changes block touches only `specificChanges`. -/
theorem stepChanges_frame (a : Analysis) (jd : Str) (r : Except Str Str) :
    (stepChanges a jd r).strengths = a.strengths ∧
    (stepChanges a jd r).improvements = a.improvements ∧
    (stepChanges a jd r).tailoring = a.tailoring ∧
    (stepChanges a jd r).customizedResume = a.customizedResume ∧
    (stepChanges a jd r).coverLetter = a.coverLetter := by
  unfold stepChanges
  by_cases h : trimStr jd = []
  · simp [h]
  · cases r with
    | error e => simp [h]
    | ok c =>
        by_cases hc : trimStr c = [] <;> simp [h, hc]

/-- The cover-letter block touches only `coverLetter`. -/
theorem stepCoverLetter_frame (a : Analysis) (jd : Str) (r : Except Str Str) :
    (stepCoverLetter a jd r).strengths = a.strengths ∧
    (stepCoverLetter a jd r).improvements = a.improvements ∧
    (stepCoverLetter a jd r).tailoring = a.tailoring ∧
    (stepCoverLetter a jd r).customizedResume = a.customizedResume ∧
    (stepCoverLetter a jd r).specificChanges = a.specificChanges := by
  unfold stepCoverLetter
  by_cases h : trimStr jd = []
  · simp [h]
  · cases r with
    | error e => simp [h]
    | ok c =>
        by_cases hc : trimStr c = [] <;> simp [h, hc]

/-- Whenever the cover-letter block runs (non-empty trimmed job
description), it stores some value into `coverLetter`: a successful letter,
the empty-response notice, or the failure message. -/
theorem stepCoverLetter_sets (a : Analysis) (jd : Str) (r : Except Str Str)
    (h : trimStr jd ≠ []) :
    (stepCoverLetter a jd r).coverLetter ≠ none := by
  unfold stepCoverLetter
  cases r with
  | error e => simp [h]
  | ok c =>
      by_cases hc : trimStr c = [] <;> simp [h, hc]

/-- The strict-JSON extraction touches only the three array fields. -/
theorem applyAnalysisText_frame (a : Analysis) (text : Str)
    (parse : Str → Option Json) :
    (applyAnalysisText a text parse).customizedResume = a.customizedResume ∧
    (applyAnalysisText a text parse).specificChanges = a.specificChanges ∧
    (applyAnalysisText a text parse).coverLetter = a.coverLetter := by
  unfold applyAnalysisText
  rcases h1 : firstIdx text '{' with _ | s
  · simp
  · rcases h2 : lastIdx text '}' with _ | e
    · simp
    · by_cases hlt : s < e
      · rcases h3 : parse (sliceStr text s (e + 1)) with _ | parsed <;>
          simp [hlt, h3]
      · simp [hlt]

/-- If every brace window of the analysis text fails to parse (or there is
no brace window at all), the strict-JSON extraction leaves the result
untouched. -/
theorem applyAnalysisText_noparse (a : Analysis) (text : Str)
    (parse : Str → Option Json)
    (H : ∀ s e, firstIdx text '{' = some s → lastIdx text '}' = some e →
         s < e → parse (sliceStr text s (e + 1)) = none) :
    applyAnalysisText a text parse = a := by
  unfold applyAnalysisText
  rcases h1 : firstIdx text '{' with _ | s
  · simp
  · rcases h2 : lastIdx text '}' with _ | e
    · simp
    · by_cases hlt : s < e
      · simp [hlt, H s e h1 h2 hlt]
      · simp [hlt]

/-- On a successful parse of the brace window, the three array fields of
the strict-JSON extraction are the `Array.isArray` coercions of the three
expected keys. -/
theorem applyAnalysisText_parsed (a : Analysis) (text : Str)
    (parse : Str → Option Json) (s e : Nat) (parsed : Json)
    (h1 : firstIdx text '{' = some s) (h2 : lastIdx text '}' = some e)
    (hlt : s < e) (h3 : parse (sliceStr text s (e + 1)) = some parsed) :
    (applyAnalysisText a text parse).strengths
        = coerceArr (getField parsed kStrengths) ∧
    (applyAnalysisText a text parse).improvements
        = coerceArr (getField parsed kImprovements) ∧
    (applyAnalysisText a text parse).tailoring
        = coerceArr (getField parsed kTailoring) := by
  unfold applyAnalysisText
  rw [h1, h2]
  simp [hlt, h3]

/-- When the analysis call succeeds with text `t`, the three array fields
of the full run come straight from the strict-JSON extraction: the three
later task blocks never touch them. -/
theorem runFullAnalysis_arrays (rT jd t : Str) (client : GenClient)
    (parse : Str → Option Json) (h : client.analysis = .ok t) :
    (runFullAnalysis rT jd client parse).strengths
        = (applyAnalysisText defaultAnalysis t parse).strengths ∧
    (runFullAnalysis rT jd client parse).improvements
        = (applyAnalysisText defaultAnalysis t parse).improvements ∧
    (runFullAnalysis rT jd client parse).tailoring
        = (applyAnalysisText defaultAnalysis t parse).tailoring := by
  unfold runFullAnalysis
  rw [h]
  refine ⟨?_, ?_, ?_⟩
  · rw [(stepCoverLetter_frame _ _ _).1, (stepChanges_frame _ _ _).1,
      (stepCustomize_frame _ _ _).1]
  · rw [(stepCoverLetter_frame _ _ _).2.1, (stepChanges_frame _ _ _).2.1,
      (stepCustomize_frame _ _ _).2.1]
  · rw [(stepCoverLetter_frame _ _ _).2.2.1, (stepChanges_frame _ _ _).2.2.1,
      (stepCustomize_frame _ _ _).2.2.1]

/-- The run with a failed analysis call returns the untouched default
result object: the outer catch skips the three remaining task blocks. -/
theorem runFullAnalysis_of_error (rT jd m : Str) (client : GenClient)
    (parse : Str → Option Json) (h : client.analysis = .error m) :
    runFullAnalysis rT jd client parse = defaultAnalysis := by
  unfold runFullAnalysis
  rw [h]

/-- The run with a successful analysis call unfolds to the three task
blocks applied after the strict-JSON extraction. -/
theorem runFullAnalysis_of_ok (rT jd t : Str) (client : GenClient)
    (parse : Str → Option Json) (h : client.analysis = .ok t) :
    runFullAnalysis rT jd client parse =
      stepCoverLetter
        (stepChanges
          (stepCustomize (applyAnalysisText defaultAnalysis t parse)
            jd client.customize)
          jd client.specificChanges)
        jd client.coverLetter := by
  unfold runFullAnalysis
  rw [h]

/-- A `JSON.parse` oracle that always fails. -/
def parseNone : Str → Option Json := fun _ => none

/-! ## Claim C1: analysis failure and the remaining tasks -/

/-- Claim C1 is refuted as stated: with a non-empty job description, a
failed analysis call and all three remaining calls ready to return
non-blank content, the run still returns every optional field absent.  In
particular `coverLetter` is `none` even though an attempted cover-letter
block with this job description always stores some value
(first conjunct), so the remaining tasks were not attempted. -/
theorem analysisFailure_cex :
    (∀ (a : Analysis) (r : Except Str Str),
        (stepCoverLetter a "the job".toList r).coverLetter ≠ none) ∧
    (runFullAnalysis "resume".toList "the job".toList
        ⟨.error "boom".toList, .ok "CUSTOM".toList, .ok "CHANGES".toList,
          .ok "LETTER".toList⟩ parseNone).customizedResume = none ∧
    (runFullAnalysis "resume".toList "the job".toList
        ⟨.error "boom".toList, .ok "CUSTOM".toList, .ok "CHANGES".toList,
          .ok "LETTER".toList⟩ parseNone).specificChanges = none ∧
    (runFullAnalysis "resume".toList "the job".toList
        ⟨.error "boom".toList, .ok "CUSTOM".toList, .ok "CHANGES".toList,
          .ok "LETTER".toList⟩ parseNone).coverLetter = none :=
  ⟨fun a r => stepCoverLetter_sets a _ r (by decide), rfl, rfl, rfl⟩

/-- Claim C1 (corrected): when the analysis generation call fails, the
returned result is exactly the default object — the mandatory fields hold
the fixed default triple, but the customization, specific-changes and
cover-letter tasks are NOT attempted (the failure is rethrown into the
outer catch, which skips them), so all three optional fields are absent
even when the job description is non-empty. -/
theorem analysisFailure_returns_defaults (rT jd m : Str) (client : GenClient)
    (parse : Str → Option Json) (h : client.analysis = .error m) :
    runFullAnalysis rT jd client parse = defaultAnalysis :=
  runFullAnalysis_of_error rT jd m client parse h

theorem analysisFailure_returns_defaults_witness :
    runFullAnalysis "resume".toList "the job".toList
        ⟨.error "boom".toList, .ok "CUSTOM".toList, .ok "CHANGES".toList,
          .ok "LETTER".toList⟩ parseNone = defaultAnalysis :=
  analysisFailure_returns_defaults _ _ "boom".toList _ _ rfl

/-! ## Claim C2: parse failure keeps the default triple -/

/-- Claim C2 (confirmed): when the raw analysis response has no brace
window (no first-`\x7b`/last-`\x7d` pair in the right order) or the window
slice fails to parse as JSON — the hypothesis `H` covers both cases at
once — the three mandatory fields of the result equal the fixed default
triple of two strings each, never an empty or absent set of arrays. -/
theorem badAnalysisJson_keeps_defaults (rT jd t : Str) (client : GenClient)
    (parse : Str → Option Json) (hok : client.analysis = .ok t)
    (H : ∀ s e, firstIdx t '{' = some s → lastIdx t '}' = some e → s < e →
         parse (sliceStr t s (e + 1)) = none) :
    (runFullAnalysis rT jd client parse).strengths = defaultStrengths ∧
    (runFullAnalysis rT jd client parse).improvements = defaultImprovements ∧
    (runFullAnalysis rT jd client parse).tailoring = defaultTailoring := by
  obtain ⟨hs, hi, ht⟩ := runFullAnalysis_arrays rT jd t client parse hok
  rw [hs, hi, ht, applyAnalysisText_noparse _ _ _ H]
  exact ⟨rfl, rfl, rfl⟩

theorem badAnalysisJson_keeps_defaults_witness :
    (runFullAnalysis "r".toList "jd".toList
        ⟨.ok "no json in sight".toList, .ok "x".toList, .ok "y".toList,
          .ok "z".toList⟩ parseNone).strengths = defaultStrengths ∧
    (runFullAnalysis "r".toList "jd".toList
        ⟨.ok "no json in sight".toList, .ok "x".toList, .ok "y".toList,
          .ok "z".toList⟩ parseNone).improvements = defaultImprovements ∧
    (runFullAnalysis "r".toList "jd".toList
        ⟨.ok "no json in sight".toList, .ok "x".toList, .ok "y".toList,
          .ok "z".toList⟩ parseNone).tailoring = defaultTailoring :=
  badAnalysisJson_keeps_defaults _ _ "no json in sight".toList _ _ rfl
    (fun _ _ _ _ _ => rfl)

/-! ## Claim C3: coercion of the three parsed keys -/

/-- `Array.isArray(v) ? v : []` yields `[]` exactly when the field is
absent or not an array. -/
theorem coerceArr_not_arr :
    ∀ (o : Option Json), (∀ xs, o ≠ some (.arr xs)) → coerceArr o = []
  | none, _ => rfl
  | some .null, _ => rfl
  | some (.bool _), _ => rfl
  | some (.num _), _ => rfl
  | some (.str _), _ => rfl
  | some (.obj _), _ => rfl
  | some (.arr xs), hne => absurd rfl (hne xs)

/-- The analysis text of the C3 counterexample: a JSON object whose
`strengths` value is an array holding a number, not a string. -/
def analysisTextC3 : Str :=
  "\x7b\"strengths\":[1],\"improvements\":[],\"tailoring\":[]\x7d".toList

/-- What `JSON.parse` returns on `analysisTextC3`. -/
def parsedC3 : Json :=
  .obj [(kStrengths, .arr [.num 1]), (kImprovements, .arr []),
        (kTailoring, .arr [])]

/-- A `JSON.parse` oracle agreeing with the JavaScript builtin on
`analysisTextC3` (and failing elsewhere). -/
def parseC3 : Str → Option Json :=
  fun s => if s = analysisTextC3 then some parsedC3 else none

/-- Claim C3 is refuted as stated: the `strengths` value parses to an
array holding the number 1, which is not an array of strings, yet the
pipeline keeps it as-is instead of coercing it to the empty sequence —
`Array.isArray` checks only arrayness, never element types. -/
theorem arrayCoercion_cex :
    isStringArray (.arr [.num 1]) = false ∧
    getField parsedC3 kStrengths = some (.arr [.num 1]) ∧
    (runFullAnalysis "r".toList "".toList
        ⟨.ok analysisTextC3, .ok [], .ok [], .ok []⟩ parseC3).strengths
      = [.num 1] ∧
    [Json.num 1] ≠ ([] : List Json) :=
  ⟨rfl, rfl, rfl, List.cons_ne_nil _ _⟩

/-- Claim C3 (corrected): on a successful parse of the brace window, each
of the result's three array fields equals the parsed value whenever that
value is an array of ANY JSON values (not only strings), and equals the
empty sequence when the key is absent or not an array. -/
theorem parsedArrays_coercion (rT jd t : Str) (client : GenClient)
    (parse : Str → Option Json) (s e : Nat) (parsed : Json)
    (hok : client.analysis = .ok t)
    (h1 : firstIdx t '{' = some s) (h2 : lastIdx t '}' = some e)
    (hlt : s < e) (h3 : parse (sliceStr t s (e + 1)) = some parsed) :
    ((∀ xs, getField parsed kStrengths = some (.arr xs) →
        (runFullAnalysis rT jd client parse).strengths = xs) ∧
     ((∀ xs, getField parsed kStrengths ≠ some (.arr xs)) →
        (runFullAnalysis rT jd client parse).strengths = [])) ∧
    ((∀ xs, getField parsed kImprovements = some (.arr xs) →
        (runFullAnalysis rT jd client parse).improvements = xs) ∧
     ((∀ xs, getField parsed kImprovements ≠ some (.arr xs)) →
        (runFullAnalysis rT jd client parse).improvements = [])) ∧
    ((∀ xs, getField parsed kTailoring = some (.arr xs) →
        (runFullAnalysis rT jd client parse).tailoring = xs) ∧
     ((∀ xs, getField parsed kTailoring ≠ some (.arr xs)) →
        (runFullAnalysis rT jd client parse).tailoring = [])) := by
  obtain ⟨hs, hi, ht⟩ := runFullAnalysis_arrays rT jd t client parse hok
  obtain ⟨ps, pi, pt⟩ :=
    applyAnalysisText_parsed defaultAnalysis t parse s e parsed h1 h2 hlt h3
  refine ⟨⟨?_, ?_⟩, ⟨?_, ?_⟩, ⟨?_, ?_⟩⟩
  · intro xs hxs
    rw [hs, ps, hxs]
    rfl
  · intro hne
    rw [hs, ps, coerceArr_not_arr _ hne]
  · intro xs hxs
    rw [hi, pi, hxs]
    rfl
  · intro hne
    rw [hi, pi, coerceArr_not_arr _ hne]
  · intro xs hxs
    rw [ht, pt, hxs]
    rfl
  · intro hne
    rw [ht, pt, coerceArr_not_arr _ hne]

theorem parsedArrays_coercion_witness :
    (runFullAnalysis "r".toList "".toList
        ⟨.ok analysisTextC3, .ok [], .ok [], .ok []⟩ parseC3).strengths
      = [.num 1] ∧
    (runFullAnalysis "r".toList "".toList
        ⟨.ok analysisTextC3, .ok [], .ok [], .ok []⟩ parseC3).improvements
      = [] :=
  ⟨(parsedArrays_coercion "r".toList "".toList analysisTextC3 _ parseC3
      0 49 parsedC3 rfl rfl rfl (by decide) rfl).1.1 [.num 1] rfl,
   (parsedArrays_coercion "r".toList "".toList analysisTextC3 _ parseC3
      0 49 parsedC3 rfl rfl rfl (by decide) rfl).2.1.1 [] rfl⟩

/-! ## Claim C4: customization failure is contained -/

/-- Claim C4 (confirmed): in a full run with a non-empty job description
where the analysis call succeeds, only the customization call fails, and
the later calls succeed (the specific-changes content not all-whitespace —
an all-whitespace "success" would be omitted per the free-text parser
rule), the result has `specificChanges` present, `coverLetter` present
(the cover-letter block always stores a value once it runs), and
`customizedResume` absent: the customization failure is contained at its
own task boundary. -/
theorem customizationFailure_isolated (rT jd t e s c : Str)
    (client : GenClient) (parse : Str → Option Json)
    (h1 : client.analysis = .ok t) (h2 : client.customize = .error e)
    (h3 : client.specificChanges = .ok s) (h4 : trimStr s ≠ [])
    (h5 : client.coverLetter = .ok c) (h6 : trimStr jd ≠ []) :
    (runFullAnalysis rT jd client parse).customizedResume = none ∧
    (runFullAnalysis rT jd client parse).specificChanges
      = some (trimStr s) ∧
    (runFullAnalysis rT jd client parse).coverLetter ≠ none := by
  rw [runFullAnalysis_of_ok _ _ _ _ _ h1, h2, h3, h5]
  have hA : stepCustomize (applyAnalysisText defaultAnalysis t parse) jd
      (.error e) = applyAnalysisText defaultAnalysis t parse := by
    unfold stepCustomize
    simp [h6]
  have hB : stepChanges (applyAnalysisText defaultAnalysis t parse) jd
      (.ok s) = { applyAnalysisText defaultAnalysis t parse with
                    specificChanges := some (trimStr s) } := by
    unfold stepChanges
    simp [h6, h4]
  rw [hA, hB]
  refine ⟨?_, ?_, stepCoverLetter_sets _ _ _ h6⟩
  · rw [(stepCoverLetter_frame _ _ _).2.2.2.1]
    show (applyAnalysisText defaultAnalysis t parse).customizedResume = none
    rw [(applyAnalysisText_frame _ _ _).1]
    rfl
  · rw [(stepCoverLetter_frame _ _ _).2.2.2.2]

theorem customizationFailure_isolated_witness :
    (runFullAnalysis "r".toList "jd".toList
        ⟨.ok "A".toList, .error "E".toList, .ok " changes ".toList,
          .ok "letter".toList⟩ parseNone).customizedResume = none ∧
    (runFullAnalysis "r".toList "jd".toList
        ⟨.ok "A".toList, .error "E".toList, .ok " changes ".toList,
          .ok "letter".toList⟩ parseNone).specificChanges
      = some (trimStr " changes ".toList) ∧
    (runFullAnalysis "r".toList "jd".toList
        ⟨.ok "A".toList, .error "E".toList, .ok " changes ".toList,
          .ok "letter".toList⟩ parseNone).coverLetter ≠ none :=
  customizationFailure_isolated "r".toList "jd".toList "A".toList
    "E".toList " changes ".toList "letter".toList _ parseNone
    rfl rfl rfl (by decide) rfl (by decide)

/-! ## Claim C5: all-whitespace task output -/

/-- Claim C5 is refuted as stated: a cover-letter response that trims to
the empty string does NOT leave the `coverLetter` field omitted — the
empty-response branch stores the fixed notice string instead. -/
theorem whitespaceOutput_cex :
    trimStr "   ".toList = [] ∧
    (runFullAnalysis "r".toList "jd".toList
        ⟨.ok "T".toList, .ok "x".toList, .ok "y".toList, .ok "   ".toList⟩
        parseNone).coverLetter = some emptyCoverLetterMsg ∧
    some emptyCoverLetterMsg ≠ (none : Option Str) :=
  ⟨by decide, rfl, fun h => Option.noConfusion h⟩

/-- Claim C5 (corrected): a raw output trimming to the empty string leads
to an omitted field for `customizedResume` and `specificChanges` (treated
as "task produced nothing", unconditionally on the other calls), but for
`coverLetter` the field is instead set to the fixed empty-response notice
string. -/
theorem whitespaceOutput_handling (rT jd c : Str) (client : GenClient)
    (parse : Str → Option Json) :
    (client.customize = .ok c → trimStr c = [] →
      (runFullAnalysis rT jd client parse).customizedResume = none) ∧
    (client.specificChanges = .ok c → trimStr c = [] →
      (runFullAnalysis rT jd client parse).specificChanges = none) ∧
    (∀ t, client.analysis = .ok t → client.coverLetter = .ok c →
      trimStr c = [] → trimStr jd ≠ [] →
      (runFullAnalysis rT jd client parse).coverLetter
        = some emptyCoverLetterMsg) := by
  refine ⟨?_, ?_, ?_⟩
  · intro hc hct
    cases hA : client.analysis with
    | error m =>
        rw [runFullAnalysis_of_error _ _ _ _ _ hA]
        rfl
    | ok t =>
        rw [runFullAnalysis_of_ok _ _ _ _ _ hA, hc]
        rw [(stepCoverLetter_frame _ _ _).2.2.2.1,
          (stepChanges_frame _ _ _).2.2.2.1]
        unfold stepCustomize
        by_cases hjd : trimStr jd = [] <;>
          simp [hjd, hct, (applyAnalysisText_frame _ _ _).1, defaultAnalysis]
  · intro hc hct
    cases hA : client.analysis with
    | error m =>
        rw [runFullAnalysis_of_error _ _ _ _ _ hA]
        rfl
    | ok t =>
        rw [runFullAnalysis_of_ok _ _ _ _ _ hA, hc]
        rw [(stepCoverLetter_frame _ _ _).2.2.2.2]
        unfold stepChanges
        by_cases hjd : trimStr jd = [] <;>
          simp [hjd, hct, (stepCustomize_frame _ _ _).2.2.2.1,
            (applyAnalysisText_frame _ _ _).2.1, defaultAnalysis]
  · intro t hA hcl hct hjd
    rw [runFullAnalysis_of_ok _ _ _ _ _ hA, hcl]
    unfold stepCoverLetter
    simp [hjd, hct]

theorem whitespaceOutput_handling_witness :
    (runFullAnalysis "r".toList "jd".toList
        ⟨.ok "T".toList, .ok "  ".toList, .ok "  ".toList, .ok "  ".toList⟩
        parseNone).customizedResume = none ∧
    (runFullAnalysis "r".toList "jd".toList
        ⟨.ok "T".toList, .ok "  ".toList, .ok "  ".toList, .ok "  ".toList⟩
        parseNone).specificChanges = none ∧
    (runFullAnalysis "r".toList "jd".toList
        ⟨.ok "T".toList, .ok "  ".toList, .ok "  ".toList, .ok "  ".toList⟩
        parseNone).coverLetter = some emptyCoverLetterMsg :=
  ⟨(whitespaceOutput_handling "r".toList "jd".toList "  ".toList _
      parseNone).1 rfl (by decide),
   (whitespaceOutput_handling "r".toList "jd".toList "  ".toList _
      parseNone).2.1 rfl (by decide),
   (whitespaceOutput_handling "r".toList "jd".toList "  ".toList _
      parseNone).2.2 "T".toList rfl rfl (by decide) (by decide)⟩

/-! ## Claim C6: cover-letter failure becomes a message -/

/-- Claim C6 (confirmed): when the cover-letter call fails in a full run
that reaches it (analysis call succeeded, non-empty job description), the
pipeline still returns a result — `runFullAnalysis` is total, the failure
never propagates — whose `coverLetter` field is the human-readable string
built from the fixed failure template, and the failure cause `m` occurs
verbatim inside that string. -/
theorem coverLetterFailure_message (rT jd t m : Str) (client : GenClient)
    (parse : Str → Option Json)
    (h1 : client.analysis = .ok t) (h2 : trimStr jd ≠ [])
    (h3 : client.coverLetter = .error m) :
    (runFullAnalysis rT jd client parse).coverLetter
      = some (coverLetterFailMsg m) ∧
    containsSub m (coverLetterFailMsg m) = true := by
  constructor
  · rw [runFullAnalysis_of_ok _ _ _ _ _ h1, h3]
    unfold stepCoverLetter
    simp [h2]
  · unfold containsSub coverLetterFailMsg
    rw [List.any_eq_true]
    refine ⟨m ++ ". Please try again.".toList, ?_, ?_⟩
    · rw [List.mem_tails, List.append_assoc]
      exact List.suffix_append _ _
    · rw [List.isPrefixOf_iff_prefix]
      exact List.prefix_append m _

theorem coverLetterFailure_message_witness :
    (runFullAnalysis "r".toList "jd".toList
        ⟨.ok "T".toList, .ok "x".toList, .ok "y".toList,
          .error "socket hang up".toList⟩ parseNone).coverLetter
      = some (coverLetterFailMsg "socket hang up".toList) ∧
    containsSub "socket hang up".toList
      (coverLetterFailMsg "socket hang up".toList) = true :=
  coverLetterFailure_message "r".toList "jd".toList "T".toList
    "socket hang up".toList _ parseNone rfl (by decide) rfl

/-! ## Claim C7: cover-letter-only merge and validation -/

/-- Claim C7 (confirmed).  First part: a successful cover-letter-only run
over a previously stored result replaces the state's result with the same
record, every field unchanged except `coverLetter`, which becomes the
fetched letter.  Second part: with a resume text or job description that
trims to empty, the run returns the state unchanged with a
`validationFailed` outcome, and the result does not depend on the fetch
outcome at all — no network call is consulted. -/
theorem coverLetterOnly_merge_validation (st : ClientState) (a : Analysis)
    (raw : Json) (cl : Str) (fr fr' : FetchResult) :
    (st.analysis = some a →
      trimStr st.resumeText ≠ [] → trimStr st.jobDescription ≠ [] →
      getField raw kCoverLetter = some (.str cl) → cl ≠ [] →
      containsSub generationFailedTok cl = false →
      containsSub emptyResponseTok cl = false →
      handleGenerateCoverLetter st (.resp true (some raw)) =
        ({ st with analysis := some { a with coverLetter := some cl } },
         .success)) ∧
    ((trimStr st.resumeText = [] ∨ trimStr st.jobDescription = []) →
      handleGenerateCoverLetter st fr = handleGenerateCoverLetter st fr' ∧
      (handleGenerateCoverLetter st fr).1 = st ∧
      ∃ m, (handleGenerateCoverLetter st fr).2 = .validationFailed m) := by
  constructor
  · intro ha hr hj hg hcl hgen hemp
    unfold handleGenerateCoverLetter
    rw [ha]
    simp [hr, hj, hg, hcl, hgen, hemp, mergeCoverLetter]
  · intro h
    have hred : ∀ g : FetchResult, handleGenerateCoverLetter st g =
        (st, .validationFailed (if trimStr st.resumeText = []
                                then uploadFirstMsg
                                else needJobDescriptionMsg)) := by
      intro g
      unfold handleGenerateCoverLetter
      by_cases hr : trimStr st.resumeText = []
      · simp [hr]
      · rcases h with h | h
        · exact absurd h hr
        · simp [hr, h]
    rw [hred fr, hred fr']
    exact ⟨rfl, rfl, ⟨_, rfl⟩⟩

theorem coverLetterOnly_merge_validation_witness :
    (handleGenerateCoverLetter
        ⟨"resume".toList, "jd".toList, some defaultAnalysis⟩
        (.resp true (some (.obj [(kCoverLetter, .str "Dear you".toList)]))) =
      ({ resumeText := "resume".toList, jobDescription := "jd".toList,
         analysis := some { defaultAnalysis with
                              coverLetter := some "Dear you".toList } },
       .success)) ∧
    ((handleGenerateCoverLetter ⟨"".toList, "jd".toList, none⟩ .netFail).1 =
      ⟨"".toList, "jd".toList, none⟩) :=
  ⟨(coverLetterOnly_merge_validation
      ⟨"resume".toList, "jd".toList, some defaultAnalysis⟩ defaultAnalysis
      (.obj [(kCoverLetter, .str "Dear you".toList)]) "Dear you".toList
      .netFail .netFail).1
      rfl (by decide) (by decide) rfl (by decide) (by decide) (by decide),
   ((coverLetterOnly_merge_validation ⟨"".toList, "jd".toList, none⟩
      defaultAnalysis .null [] .netFail .netFail).2
      (Or.inl (by decide))).2.1⟩

/-! ## Claim C10: atomicity of the cover-letter-only run on failure -/

/-- Claim C10 (confirmed): every run of `handleGenerateCoverLetter` either
succeeds or returns the client state — in particular the stored result
object — entirely unchanged.  All the failure paths (validation, rejected
fetch, non-ok response, unparsable body, missing or non-string or empty
`coverLetter` field, or a letter containing "generation failed" or
"empty response") fall into the second case: no field of the previously
stored result, `coverLetter` included, is modified on error. -/
theorem coverLetterOnly_atomic (st : ClientState) (fr : FetchResult) :
    (handleGenerateCoverLetter st fr).2 = .success ∨
    (handleGenerateCoverLetter st fr).1 = st := by
  unfold handleGenerateCoverLetter
  repeat' split
  all_goals simp

end SmartApply
